import Mathlib

/-!
Verification of the message-entity core of garagemq (`amqp/types.go`):
the Message aggregate, its binary persistence codec, the confirm tracker,
the identity generator and the error classifier.

The primitive wire codec, the content-header codec, the reply-code table
and the publish command type are external collaborators of this core (they
live elsewhere in the repository); they are modelled here from the design
document, each such definition carrying a doc comment that says so.
Machine integers are modelled as `Nat` with explicit `% 2 ^ w` where Go
would wrap; Go `nil` pointers become `Option`; fallible operations return
`Option`.
-/

namespace GarageMQ

/-- Modelled from the spec: the external primitive wire codec is not part
of this core's source.  The spec describes fixed-width big-endian integer
fields of 2, 4 and 8 bytes.  `beBytes w n` is the big-endian `w`-byte
encoding of `n % 256 ^ w`. -/
def beBytes : Nat → Nat → List Nat
  | 0, _ => []
  | w + 1, n => (n / 256 ^ w) % 256 :: beBytes w n

/-- Modelled from the spec: big-endian fixed-width decode.  Returns the
decoded value and the remaining bytes; fails on a truncated buffer. -/
def beRead : Nat → List Nat → Option (Nat × List Nat)
  | 0, bs => some (0, bs)
  | _ + 1, [] => none
  | w + 1, b :: bs => (beRead w bs).map fun p => (b * 256 ^ w + p.1, p.2)

/-- Modelled from the spec: 8-byte unsigned integer encode (`WriteLonglong`). -/
def WriteLonglong (n : Nat) : List Nat := beBytes 8 n

/-- Modelled from the spec: 8-byte unsigned integer decode (`ReadLonglong`). -/
def ReadLonglong (bs : List Nat) : Option (Nat × List Nat) := beRead 8 bs

/-- Modelled from the spec: 4-byte unsigned integer encode (`WriteLong`). -/
def WriteLong (n : Nat) : List Nat := beBytes 4 n

/-- Modelled from the spec: 4-byte unsigned integer decode (`ReadLong`). -/
def ReadLong (bs : List Nat) : Option (Nat × List Nat) := beRead 4 bs

/-- Modelled from the spec: short-string encode (`WriteShortstr`), a
1-byte length prefix followed by the raw bytes.  A string longer than 255
bytes cannot be represented and is an explicit encode failure. -/
def WriteShortstr (s : List Nat) : Option (List Nat) :=
  if s.length ≤ 255 then some (s.length :: s) else none

/-- Modelled from the spec: short-string decode (`ReadShortstr`). -/
def ReadShortstr : List Nat → Option (List Nat × List Nat)
  | [] => none
  | n :: rest => if n ≤ rest.length then some (rest.take n, rest.drop n) else none

/-- Modelled from the spec: long-string encode (`WriteLongstr`), a 4-byte
length prefix followed by the raw bytes.  A blob of `2 ^ 32` bytes or more
cannot be represented and is an explicit encode failure. -/
def WriteLongstr (s : List Nat) : Option (List Nat) :=
  if s.length < 2 ^ 32 then some (beBytes 4 s.length ++ s) else none

/-- Modelled from the spec: long-string decode (`ReadLongstr`). -/
def ReadLongstr (bs : List Nat) : Option (List Nat × List Nat) :=
  (beRead 4 bs).bind fun p =>
    if p.1 ≤ p.2.length then some (p.2.take p.1, p.2.drop p.1) else none

/-- Frame is raw frame (struct `Frame` of the source).  The Go `Type` byte
field keeps its name, quoted because `Type` is reserved in Lean. -/
structure Frame where
  ChannelID : Nat
  «Type» : Nat
  CloseAfter : Bool
  Sync : Bool
  Payload : List Nat
deriving Repr, DecidableEq

/-- Byte encoding of a Go bool used by the modelled frame codec. -/
def boolByte (b : Bool) : Nat := if b then 1 else 0

/-- Modelled from the spec: the external frame codec (`WriteFrame`) is not
part of this core's source.  The spec requires only that the encoding be
self-delimiting and that decode exactly invert encode ("requires that
frame decoding consume exactly the bytes it produced on encode"), so every
Frame field is encoded: type byte, 2-byte channel id, one byte per control
flag, then the payload as a long string. -/
def WriteFrame (f : Frame) : Option (List Nat) :=
  (WriteLongstr f.Payload).map fun p =>
    f.«Type» % 256 :: (beBytes 2 f.ChannelID ++ (boolByte f.CloseAfter :: boolByte f.Sync :: p))

/-- Modelled from the spec: frame decode (`ReadFrame`), the exact inverse
of the modelled `WriteFrame`. -/
def ReadFrame : List Nat → Option (Frame × List Nat)
  | [] => none
  | t :: bs1 =>
    (beRead 2 bs1).bind fun pch =>
      match pch.2 with
      | [] => none
      | ca :: bs2 =>
        match bs2 with
        | [] => none
        | sy :: bs3 =>
          (ReadLongstr bs3).map fun pp =>
            ({ ChannelID := pch.1, «Type» := t, CloseAfter := ca != 0,
               Sync := sy != 0, Payload := pp.1 }, pp.2)

/-- Modelled from the spec: the external version-dependent property list
(`BasicPropertyList`).  The spec names only the optional delivery-mode
field, the one consulted by this core's persistence check. -/
structure BasicPropertyList where
  DeliveryMode : Option Nat
deriving Repr, DecidableEq

/-- ContentHeader represents amqp-message content-header (struct
`ContentHeader` of the source). -/
structure ContentHeader where
  BodySize : Nat
  ClassID : Nat
  Weight : Nat
  propertyFlags : Nat
  PropertyList : Option BasicPropertyList
deriving Repr, DecidableEq

/-- Modelled from the spec: encoding of the (possibly nil) property-list
pointer inside the content-header codec: a presence byte, then a presence
byte for the delivery mode, then its value. -/
def writePropertyList : Option BasicPropertyList → List Nat
  | none => [0]
  | some pl =>
    match pl.DeliveryMode with
    | none => [1, 0]
    | some d => [1, 1, d % 256]

/-- Modelled from the spec: inverse of `writePropertyList`. -/
def readPropertyList : List Nat → Option (Option BasicPropertyList × List Nat)
  | 0 :: rest => some (none, rest)
  | 1 :: 0 :: rest => some (some { DeliveryMode := none }, rest)
  | 1 :: 1 :: d :: rest => some (some { DeliveryMode := some d }, rest)
  | _ => none

/-- Modelled from the spec: the external content-header codec
(`WriteContentHeader`): class id, weight, body size, property-presence
bitmask, then the property list.  The spec threads `protoVersion` through
unchanged and fixes no concrete layout, so one uniform layout serves every
supported version.  A nil header pointer cannot be encoded (the Go call
would dereference nil) and is modelled as an explicit failure. -/
def WriteContentHeader : Option ContentHeader → String → Option (List Nat)
  | none, _ => none
  | some h, _ =>
    some (beBytes 2 h.ClassID ++ (beBytes 2 h.Weight ++ (beBytes 8 h.BodySize ++
          (beBytes 2 h.propertyFlags ++ writePropertyList h.PropertyList))))

/-- Modelled from the spec: content-header decode (`ReadContentHeader`),
the exact inverse of the modelled `WriteContentHeader`. -/
def ReadContentHeader (bs : List Nat) (_protoVersion : String) :
    Option (ContentHeader × List Nat) :=
  (beRead 2 bs).bind fun pc =>
  (beRead 2 pc.2).bind fun pw =>
  (beRead 8 pw.2).bind fun pb =>
  (beRead 2 pb.2).bind fun pf =>
  (readPropertyList pf.2).map fun pp =>
    ({ BodySize := pb.1, ClassID := pc.1, Weight := pw.1,
       propertyFlags := pf.1, PropertyList := pp.1 }, pp.2)

/-- ConfirmMeta store information for check confirms and send confirm-acks
(struct `ConfirmMeta` of the source; the two counters are Go `int`). -/
structure ConfirmMeta where
  ChanID : Nat
  ConnID : Nat
  DeliveryTag : Nat
  ExpectedConfirms : Int
  ActualConfirms : Int
deriving Repr, DecidableEq

/-- CanConfirm returns is message can be confirmed (method
`ConfirmMeta.CanConfirm` of the source, a pure comparison). -/
def ConfirmMeta.CanConfirm (meta : ConfirmMeta) : Bool :=
  meta.ActualConfirms == meta.ExpectedConfirms

/-- Message represents amqp-message and meta-data (struct `Message` of the
source).  Go nil pointers become `none`. -/
structure Message where
  ID : Nat
  BodySize : Nat
  DeliveryCount : Nat
  Mandatory : Bool
  Immediate : Bool
  Exchange : List Nat
  RoutingKey : List Nat
  ConfirmMeta : Option ConfirmMeta
  Header : Option ContentHeader
  Body : List Frame
deriving Repr, DecidableEq

/-- The zero value of the Go `Message` struct: a fresh message every field
of which is zero, false, empty or nil. -/
def emptyMessage : Message :=
  { ID := 0, BodySize := 0, DeliveryCount := 0, Mandatory := false,
    Immediate := false, Exchange := [], RoutingKey := [],
    ConfirmMeta := none, Header := none, Body := [] }

/-- Modelled from the spec: the external publish command (`BasicPublish`)
supplies exchange, routing key and the mandatory/immediate flags at
message construction time. -/
structure BasicPublish where
  Exchange : List Nat
  RoutingKey : List Nat
  Mandatory : Bool
  Immediate : Bool
deriving Repr, DecidableEq

/-- NewMessage returns new message instance (function `NewMessage` of the
source); the fields it does not set keep the Go zero value. -/
def NewMessage (method : BasicPublish) : Message :=
  { ID := 0, BodySize := 0, DeliveryCount := 0,
    Mandatory := method.Mandatory, Immediate := method.Immediate,
    Exchange := method.Exchange, RoutingKey := method.RoutingKey,
    ConfirmMeta := none, Header := none, Body := [] }

/-- IsPersistent check if message should be persisted (method
`Message.IsPersistent` of the source).  The Go code dereferences the
header and property-list pointers unconditionally; a nil along that path
is modelled as `none` (undefined behaviour of the caller). -/
def Message.IsPersistent (message : Message) : Option Bool :=
  message.Header.bind fun h =>
    h.PropertyList.map fun pl => pl.DeliveryMode == some 2

/-- Method `Message.GenerateSeq` of the source, embedded with explicit
state passing for the process-wide counter `msgID`: the argument is the
counter's current value, the result pairs the updated counter with the
updated message.  `msgID` is a Go `uint64`, so the atomic add-then-store
wraps at `2 ^ 64`. -/
def Message.GenerateSeq (message : Message) (msgID : Nat) : Nat × Message :=
  if message.ID = 0 then
    ((msgID + 1) % 2 ^ 64, { message with ID := (msgID + 1) % 2 ^ 64 })
  else (msgID, message)

/-- Append appends new body-frame into message and increase bodySize
(method `Message.Append` of the source).  `BodySize` is a Go `uint64`, so
the addition wraps at `2 ^ 64`. -/
def Message.Append (message : Message) (body : Frame) : Message :=
  { message with
      Body := message.Body ++ [body],
      BodySize := (message.BodySize + body.Payload.length) % 2 ^ 64 }

/-- Sequential encoding of all body frames, as done by the loop inside
`Message.Marshal` writing each frame into one buffer. -/
def WriteFrames : List Frame → Option (List Nat)
  | [] => some []
  | f :: fs =>
    (WriteFrame f).bind fun bf => (WriteFrames fs).map fun rest => bf ++ rest

/-- Marshal converts message into bytes to store into db (method
`Message.Marshal` of the source): identity, content header, exchange,
routing key, declared body size, the frame blob as one long string, then
the delivery count.  Any primitive encode failure aborts the whole
operation. -/
def Message.Marshal (message : Message) (protoVersion : String) :
    Option (List Nat) :=
  (WriteContentHeader message.Header protoVersion).bind fun hdr =>
  (WriteShortstr message.Exchange).bind fun ex =>
  (WriteShortstr message.RoutingKey).bind fun rk =>
  (WriteFrames message.Body).bind fun body =>
  (WriteLongstr body).map fun blob =>
    WriteLonglong message.ID ++ (hdr ++ (ex ++ (rk ++
      (WriteLonglong message.BodySize ++ (blob ++ WriteLong message.DeliveryCount)))))

/-- The body-decoding loop of `Message.Unmarshal`: read one frame at a
time until the blob is exhausted.  The recursion is bounded by a fuel
argument (a successful `ReadFrame` always consumes at least one byte, so
fuel equal to the byte count never runs out; see
`ReadFramesAux_fuel_irrelevant`). -/
def ReadFramesAux : Nat → List Nat → Option (List Frame)
  | _, [] => some []
  | 0, _ :: _ => none
  | fuel + 1, b :: bs =>
    (ReadFrame (b :: bs)).bind fun p =>
      (ReadFramesAux fuel p.2).map fun fs => p.1 :: fs

/-- Read frames from a blob until no bytes remain (the `for
bodyBuffer.Len() != 0` loop of `Message.Unmarshal`). -/
def ReadFrames (bs : List Nat) : Option (List Frame) :=
  ReadFramesAux bs.length bs

/-- Unmarshal restore message entity from bytes (method
`Message.Unmarshal` of the source).  It overwrites every field it reads,
but appends the decoded body frames to the receiver's existing `Body`
slice, and never touches `Mandatory`, `Immediate` or `ConfirmMeta`. -/
def Message.Unmarshal (message : Message) (buffer : List Nat)
    (protoVersion : String) : Option Message :=
  (ReadLonglong buffer).bind fun pid =>
  (ReadContentHeader pid.2 protoVersion).bind fun ph =>
  (ReadShortstr ph.2).bind fun pex =>
  (ReadShortstr pex.2).bind fun prk =>
  (ReadLonglong prk.2).bind fun psz =>
  (ReadLongstr psz.2).bind fun praw =>
  (ReadFrames praw.1).bind fun frames =>
  (ReadLong praw.2).map fun pdc =>
    { message with
        ID := pid.1, Header := some ph.1, Exchange := pex.1,
        RoutingKey := prk.1, BodySize := psz.1,
        Body := message.Body ++ frames, DeliveryCount := pdc.1 }

/-- Constants to detect connection or channel error thrown (the source's
`iota` pair). -/
def ErrorOnConnection : Nat := 0

/-- Second member of the source's `iota` pair. -/
def ErrorOnChannel : Nat := 1

/-- Error represents AMQP-error data (struct `Error` of the source). -/
structure Error where
  ReplyCode : Nat
  ReplyText : String
  ClassID : Nat
  MethodID : Nat
  ErrorType : Nat
deriving Repr, DecidableEq

/-- Modelled from the spec: the external fixed reply-code-to-name table
(`ConstantsNameMap`), mapping numeric AMQP reply codes to their canonical
names. -/
def ConstantsNameMap : List (Nat × String) :=
  [(200, "SUCCESS"), (311, "CONTENT-TOO-LARGE"), (313, "NO-CONSUMERS"),
   (320, "CONNECTION-FORCED"), (402, "INVALID-PATH"), (403, "ACCESS-REFUSED"),
   (404, "NOT-FOUND"), (405, "RESOURCE-LOCKED"), (406, "PRECONDITION-FAILED"),
   (501, "FRAME-ERROR"), (502, "SYNTAX-ERROR"), (503, "COMMAND-INVALID"),
   (504, "CHANNEL-ERROR"), (505, "UNEXPECTED-FRAME"), (506, "RESOURCE-ERROR"),
   (530, "NOT-ALLOWED"), (540, "NOT-IMPLEMENTED"), (541, "INTERNAL-ERROR")]

/-- Go map indexing semantics: a missing key yields the string zero value
(the empty string), never a failure. -/
def mapLookup (m : List (Nat × String)) (k : Nat) : String :=
  match m.find? fun p => p.1 == k with
  | some p => p.2
  | none => ""

/-- NewConnectionError returns new connection error (function
`NewConnectionError` of the source). -/
def NewConnectionError (code : Nat) (text : String) (classID : Nat)
    (methodID : Nat) : Error :=
  { ReplyCode := code,
    ReplyText := mapLookup ConstantsNameMap code ++ " - " ++ text,
    ClassID := classID, MethodID := methodID,
    ErrorType := ErrorOnConnection }

/-- NewChannelError returns new channel error (function `NewChannelError`
of the source). -/
def NewChannelError (code : Nat) (text : String) (classID : Nat)
    (methodID : Nat) : Error :=
  { ReplyCode := code,
    ReplyText := mapLookup ConstantsNameMap code ++ " - " ++ text,
    ClassID := classID, MethodID := methodID,
    ErrorType := ErrorOnChannel }

/-- Machine-range well-formedness of a Frame: its Go fields are a byte
and a `uint16`. -/
def Frame.WF (f : Frame) : Prop :=
  f.«Type» < 256 ∧ f.ChannelID < 2 ^ 16

/-- Machine-range well-formedness of a ContentHeader: `uint16` fields, a
`uint64` body size, a `uint8` delivery mode. -/
def ContentHeader.WF (h : ContentHeader) : Prop :=
  h.ClassID < 2 ^ 16 ∧ h.Weight < 2 ^ 16 ∧ h.BodySize < 2 ^ 64 ∧
  h.propertyFlags < 2 ^ 16 ∧
  ∀ pl ∈ h.PropertyList, ∀ d ∈ pl.DeliveryMode, d < 256

/-- Machine-range well-formedness of a Message: every numeric field fits
its Go machine type, and the header and frames are well formed.  Every
value the Go type system can hold satisfies this. -/
def Message.WF (m : Message) : Prop :=
  m.ID < 2 ^ 64 ∧ m.BodySize < 2 ^ 64 ∧ m.DeliveryCount < 2 ^ 32 ∧
  (∀ h ∈ m.Header, h.WF) ∧ ∀ f ∈ m.Body, f.WF

instance (f : Frame) : Decidable f.WF := by unfold Frame.WF; infer_instance

instance (h : ContentHeader) : Decidable h.WF := by
  unfold ContentHeader.WF; infer_instance

instance (m : Message) : Decidable m.WF := by
  unfold Message.WF; infer_instance

/-- Total payload byte count of a body-frame sequence. -/
def bodyPayloadSum (body : List Frame) : Nat :=
  (body.map fun f => f.Payload.length).sum

/-! Concrete values used by the example theorems below. -/

/-- Concrete content header with the persistent delivery mode. -/
def exHeader : ContentHeader :=
  { BodySize := 8, ClassID := 60, Weight := 0, propertyFlags := 0,
    PropertyList := some { DeliveryMode := some 2 } }

/-- Concrete content header with no property list. -/
def exHeader0 : ContentHeader :=
  { BodySize := 0, ClassID := 60, Weight := 0, propertyFlags := 0,
    PropertyList := none }

/-- Concrete body frame with a 3-byte payload. -/
def exFrame1 : Frame :=
  { ChannelID := 1, «Type» := 3, CloseAfter := false, Sync := false,
    Payload := [10, 20, 30] }

/-- Concrete body frame with a 5-byte payload. -/
def exFrame2 : Frame :=
  { ChannelID := 1, «Type» := 3, CloseAfter := false, Sync := true,
    Payload := [1, 2, 3, 4, 5] }

/-- Concrete body frame with a 7-byte payload. -/
def exFrame3 : Frame :=
  { ChannelID := 2, «Type» := 3, CloseAfter := false, Sync := false,
    Payload := [9, 8, 7, 6, 5, 4, 3] }

/-- Concrete body frame with an empty payload. -/
def exEmptyFrame : Frame :=
  { ChannelID := 1, «Type» := 3, CloseAfter := false, Sync := false, Payload := [] }

/-- Concrete well-formed message with two body frames (exchange "logs",
routing key "info" as byte lists). -/
def exMessage : Message :=
  { ID := 7, BodySize := 8, DeliveryCount := 2, Mandatory := false,
    Immediate := false, Exchange := [108, 111, 103, 115],
    RoutingKey := [105, 110, 102, 111], ConfirmMeta := none,
    Header := some exHeader, Body := [exFrame1, exFrame2] }

/-- Concrete message with the Mandatory flag set. -/
def exMandatoryMsg : Message :=
  { exMessage with Mandatory := true }

/-- Concrete message with Mandatory, Immediate and a confirm contract all
set. -/
def exFlaggedMsg : Message :=
  { exMessage with
    Mandatory := true,
    Immediate := true,
    ConfirmMeta := some { ChanID := 1, ConnID := 2, DeliveryTag := 3,
                          ExpectedConfirms := 2, ActualConfirms := 1 } }

/-- Concrete marshallable message with no body frames. -/
def exZeroBodyMsg : Message :=
  { emptyMessage with Header := some exHeader0 }

/-- Concrete receiver message that already holds one empty-payload body
frame. -/
def exPreloadedMsg : Message :=
  { emptyMessage with Body := [exEmptyFrame] }

/-- Concrete receiver message that already holds one 3-byte-payload body
frame. -/
def exLoadedMsg : Message :=
  { emptyMessage with Body := [exFrame1] }

/-- Concrete publish command. -/
def exPublish : BasicPublish :=
  { Exchange := [108, 111, 103, 115], RoutingKey := [105, 110, 102, 111],
    Mandatory := true, Immediate := false }

/-- The protocol version string used in the concrete examples. -/
def protoV : String := "0-9-1"

/-- Concrete message whose BodySize sits at the top of the uint64 range,
a state reachable through this core's own API since Unmarshal stores the
raw 8-byte declared size. -/
def exHugeMsg : Message := { emptyMessage with BodySize := 2 ^ 64 - 1 }

/-- Expected result of unmarshalling the bytes of `exZeroBodyMsg` into
`exPreloadedMsg`. -/
def exPostMsg : Message :=
  { emptyMessage with Header := some exHeader0, Body := [exEmptyFrame] }

/-! Round-trip and consumption lemmas for the modelled primitive codec. -/

theorem beBytes_length (w n : Nat) : (beBytes w n).length = w := by
  induction w generalizing n with
  | zero => rfl
  | succ w ih => simp [beBytes, ih]

theorem beRead_beBytes (w n : Nat) (rest : List Nat) :
    beRead w (beBytes w n ++ rest) = some (n % 256 ^ w, rest) := by
  induction w generalizing n with
  | zero => simp [beBytes, beRead, Nat.mod_one]
  | succ w ih =>
    have hmod : n / 256 ^ w % 256 * 256 ^ w + n % 256 ^ w = n % 256 ^ (w + 1) := by
      rw [pow_succ, Nat.mod_mul]; ring
    simp [beBytes, beRead, ih, hmod]

theorem beRead_beBytes_of_lt (w n : Nat) (rest : List Nat) (hn : n < 256 ^ w) :
    beRead w (beBytes w n ++ rest) = some (n, rest) := by
  rw [beRead_beBytes, Nat.mod_eq_of_lt hn]

theorem beRead_rest_le (w : Nat) (bs : List Nat) (p : Nat × List Nat)
    (h : beRead w bs = some p) : p.2.length ≤ bs.length := by
  induction w generalizing bs p with
  | zero =>
    simp only [beRead, Option.some.injEq] at h
    rw [← h]
  | succ w ih =>
    cases bs with
    | nil => simp [beRead] at h
    | cons b bs2 =>
      simp only [beRead, Option.map_eq_some'] at h
      obtain ⟨q, hq, hpq⟩ := h
      have := ih bs2 q hq
      rw [← hpq]
      simpa using Nat.le_succ_of_le this

theorem ReadShortstr_WriteShortstr (s e rest : List Nat)
    (h : WriteShortstr s = some e) : ReadShortstr (e ++ rest) = some (s, rest) := by
  unfold WriteShortstr at h
  split at h
  · cases h
    simp only [List.cons_append, ReadShortstr]
    rw [if_pos (by simp), List.take_left, List.drop_left]
  · simp at h

theorem ReadLongstr_WriteLongstr (s e rest : List Nat)
    (h : WriteLongstr s = some e) : ReadLongstr (e ++ rest) = some (s, rest) := by
  unfold WriteLongstr at h
  split at h
  · rename_i hlt
    cases h
    have hlt4 : s.length < 256 ^ 4 := lt_of_lt_of_eq hlt (by norm_num)
    unfold ReadLongstr
    rw [List.append_assoc, beRead_beBytes_of_lt 4 s.length (s ++ rest) hlt4]
    simp only [Option.some_bind]
    rw [if_pos (by simp), List.take_left, List.drop_left]
  · simp at h

theorem ReadLongstr_rest_le (bs : List Nat) (p : List Nat × List Nat)
    (h : ReadLongstr bs = some p) : p.2.length ≤ bs.length := by
  unfold ReadLongstr at h
  rw [Option.bind_eq_some] at h
  obtain ⟨q, hq, hif⟩ := h
  have h1 := beRead_rest_le 4 bs q hq
  split at hif
  · cases hif
    simp only [List.length_drop]
    exact le_trans (Nat.sub_le _ _) h1
  · simp at hif

theorem boolByte_bne (b : Bool) : (boolByte b != 0) = b := by cases b <;> rfl

theorem ReadFrame_WriteFrame (f : Frame) (e rest : List Nat) (hwf : f.WF)
    (h : WriteFrame f = some e) : ReadFrame (e ++ rest) = some (f, rest) := by
  obtain ⟨ch, ty, ca, sy, pl⟩ := f
  obtain ⟨hty, hch⟩ := hwf
  unfold WriteFrame at h
  rw [Option.map_eq_some'] at h
  obtain ⟨p, hp, hpe⟩ := h
  subst hpe
  have hch2 : ch < 256 ^ 2 := lt_of_lt_of_eq hch (by norm_num)
  simp only [List.cons_append, List.append_assoc, ReadFrame]
  rw [beRead_beBytes_of_lt 2 ch _ hch2]
  simp only [Option.some_bind]
  rw [ReadLongstr_WriteLongstr pl p rest hp]
  simp only [Option.map_some']
  simp [boolByte_bne, Nat.mod_eq_of_lt hty]

theorem ReadFrame_rest_le (b : Nat) (bs : List Nat) (p : Frame × List Nat)
    (h : ReadFrame (b :: bs) = some p) : p.2.length ≤ bs.length := by
  unfold ReadFrame at h
  rw [Option.bind_eq_some] at h
  obtain ⟨pch, hch, h2⟩ := h
  have hle1 := beRead_rest_le 2 bs pch hch
  cases hc2 : pch.2 with
  | nil => rw [hc2] at h2; simp at h2
  | cons ca bs2 =>
    rw [hc2] at h2
    cases bs2 with
    | nil => simp at h2
    | cons sy bs3 =>
      simp only [Option.map_eq_some'] at h2
      obtain ⟨pp, hpp, hppe⟩ := h2
      have h3 := ReadLongstr_rest_le bs3 pp hpp
      have h4 : bs3.length + 2 ≤ bs.length := by
        have h5 := congrArg List.length hc2
        simp at h5
        omega
      rw [← hppe]
      show pp.2.length ≤ bs.length
      omega

theorem ReadFramesAux_fuel_irrelevant (fuel fuel2 : Nat) (bs : List Nat)
    (h1 : bs.length ≤ fuel) (h2 : bs.length ≤ fuel2) :
    ReadFramesAux fuel bs = ReadFramesAux fuel2 bs := by
  induction fuel generalizing fuel2 bs with
  | zero =>
    cases bs with
    | nil => cases fuel2 <;> rfl
    | cons b bs2 => simp at h1
  | succ fl ih =>
    cases bs with
    | nil => cases fuel2 <;> rfl
    | cons b bs2 =>
      cases fuel2 with
      | zero => simp at h2
      | succ fl2 =>
        simp only [ReadFramesAux]
        cases hrf : ReadFrame (b :: bs2) with
        | none => rfl
        | some p =>
          have hple := ReadFrame_rest_le b bs2 p hrf
          simp only [Option.some_bind]
          rw [ih fl2 p.2 (by simp at h1; omega) (by simp at h2; omega)]

theorem ReadFramesAux_WriteFrames (fs : List Frame) :
    ∀ blob : List Nat, (∀ f ∈ fs, f.WF) → WriteFrames fs = some blob →
    ∀ fuel, blob.length ≤ fuel → ReadFramesAux fuel blob = some fs := by
  induction fs with
  | nil =>
    intro blob _ h fuel _
    simp only [WriteFrames, Option.some.injEq] at h
    subst h
    cases fuel <;> rfl
  | cons f fs2 ih =>
    intro blob hwf h fuel hfuel
    simp only [WriteFrames, Option.bind_eq_some, Option.map_eq_some'] at h
    obtain ⟨bf, hbf, rest2, hrest, hblob⟩ := h
    subst hblob
    obtain ⟨t, tl, hbfe⟩ : ∃ t tl, bf = t :: tl := by
      unfold WriteFrame at hbf
      rw [Option.map_eq_some'] at hbf
      obtain ⟨p, _, hpe⟩ := hbf
      exact ⟨_, _, hpe.symm⟩
    have hrf : ReadFrame (bf ++ rest2) = some (f, rest2) :=
      ReadFrame_WriteFrame f bf rest2 (hwf f (by simp)) hbf
    cases fuel with
    | zero =>
      rw [hbfe] at hfuel
      simp at hfuel
    | succ fl =>
      rw [hbfe, List.cons_append]
      simp only [ReadFramesAux]
      rw [← List.cons_append, ← hbfe, hrf]
      simp only [Option.some_bind]
      have hlen : rest2.length ≤ fl := by
        rw [hbfe] at hfuel
        simp at hfuel
        omega
      rw [ih rest2 (fun g hg => hwf g (List.mem_cons_of_mem f hg)) hrest fl hlen]
      rfl

theorem ReadFrames_WriteFrames (fs : List Frame) (blob : List Nat)
    (hwf : ∀ f ∈ fs, f.WF) (h : WriteFrames fs = some blob) :
    ReadFrames blob = some fs :=
  ReadFramesAux_WriteFrames fs blob hwf h blob.length le_rfl

theorem readPropertyList_writePropertyList (opl : Option BasicPropertyList)
    (rest : List Nat) (hwf : ∀ pl ∈ opl, ∀ d ∈ pl.DeliveryMode, d < 256) :
    readPropertyList (writePropertyList opl ++ rest) = some (opl, rest) := by
  cases opl with
  | none => rfl
  | some pl =>
    obtain ⟨dm⟩ := pl
    cases dm with
    | none => rfl
    | some d =>
      have hd : d < 256 := hwf { DeliveryMode := some d } rfl d rfl
      simp [writePropertyList, readPropertyList, Nat.mod_eq_of_lt hd]

theorem ReadContentHeader_WriteContentHeader (hh : ContentHeader) (v : String)
    (e rest : List Nat) (hwf : hh.WF)
    (h : WriteContentHeader (some hh) v = some e) :
    ReadContentHeader (e ++ rest) v = some (hh, rest) := by
  obtain ⟨bsz, cl, wt, pf, opl⟩ := hh
  obtain ⟨hcl, hwt, hbsz, hpf, hpl⟩ := hwf
  simp only [WriteContentHeader, Option.some.injEq] at h
  subst h
  unfold ReadContentHeader
  simp only [List.append_assoc]
  rw [beRead_beBytes_of_lt 2 cl _ (lt_of_lt_of_eq hcl (by norm_num))]
  simp only [Option.some_bind]
  rw [beRead_beBytes_of_lt 2 wt _ (lt_of_lt_of_eq hwt (by norm_num))]
  simp only [Option.some_bind]
  rw [beRead_beBytes_of_lt 8 bsz _ (lt_of_lt_of_eq hbsz (by norm_num))]
  simp only [Option.some_bind]
  rw [beRead_beBytes_of_lt 2 pf _ (lt_of_lt_of_eq hpf (by norm_num))]
  simp only [Option.some_bind]
  rw [readPropertyList_writePropertyList opl rest hpl]
  rfl

theorem Unmarshal_Marshal_core (m : Message) (v : String) (bs : List Nat)
    (hwf : m.WF) (h : m.Marshal v = some bs) (m0 : Message) :
    Message.Unmarshal m0 bs v =
      some { m0 with
        ID := m.ID, Header := m.Header, Exchange := m.Exchange,
        RoutingKey := m.RoutingKey, BodySize := m.BodySize,
        Body := m0.Body ++ m.Body, DeliveryCount := m.DeliveryCount } := by
  obtain ⟨hid, hbsz, hdc, hhdr, hfr⟩ := hwf
  unfold Message.Marshal at h
  rw [Option.bind_eq_some] at h
  obtain ⟨hdr, hhdrw, h⟩ := h
  rw [Option.bind_eq_some] at h
  obtain ⟨ex, hexw, h⟩ := h
  rw [Option.bind_eq_some] at h
  obtain ⟨rk, hrkw, h⟩ := h
  rw [Option.bind_eq_some] at h
  obtain ⟨body, hbodyw, h⟩ := h
  rw [Option.map_eq_some'] at h
  obtain ⟨blob, hblobw, hbs⟩ := h
  subst hbs
  obtain ⟨hh, hhsome⟩ : ∃ hh, m.Header = some hh := by
    cases hmh : m.Header with
    | none => rw [hmh] at hhdrw; simp [WriteContentHeader] at hhdrw
    | some hh => exact ⟨hh, rfl⟩
  rw [hhsome] at hhdrw
  unfold Message.Unmarshal ReadLonglong WriteLonglong ReadLong WriteLong
  rw [beRead_beBytes_of_lt 8 m.ID _ (lt_of_lt_of_eq hid (by norm_num))]
  simp only [Option.some_bind]
  rw [ReadContentHeader_WriteContentHeader hh v hdr _ (hhdr hh hhsome) hhdrw]
  simp only [Option.some_bind]
  rw [ReadShortstr_WriteShortstr m.Exchange ex _ hexw]
  simp only [Option.some_bind]
  rw [ReadShortstr_WriteShortstr m.RoutingKey rk _ hrkw]
  simp only [Option.some_bind]
  rw [beRead_beBytes_of_lt 8 m.BodySize _ (lt_of_lt_of_eq hbsz (by norm_num))]
  simp only [Option.some_bind]
  rw [ReadLongstr_WriteLongstr body blob _ hblobw]
  simp only [Option.some_bind]
  rw [ReadFrames_WriteFrames m.Body body hfr hbodyw]
  simp only [Option.some_bind]
  rw [show beBytes 4 m.DeliveryCount = beBytes 4 m.DeliveryCount ++ [] from
        (List.append_nil _).symm,
      beRead_beBytes_of_lt 4 m.DeliveryCount [] (lt_of_lt_of_eq hdc (by norm_num))]
  simp only [Option.map_some']
  rw [hhsome]

theorem WriteShortstr_eq (s e : List Nat) (h : WriteShortstr s = some e) :
    s.length ≤ 255 ∧ e = s.length :: s := by
  unfold WriteShortstr at h
  split at h
  · rename_i hle
    cases h
    exact ⟨hle, rfl⟩
  · simp at h

theorem WriteLongstr_eq (s e : List Nat) (h : WriteLongstr s = some e) :
    s.length < 2 ^ 32 ∧ e = beBytes 4 s.length ++ s := by
  unfold WriteLongstr at h
  split at h
  · rename_i hlt
    cases h
    exact ⟨hlt, rfl⟩
  · simp at h

theorem Unmarshal_preserves_meta (m0 : Message) (bs : List Nat) (v : String)
    (mres : Message) (h : Message.Unmarshal m0 bs v = some mres) :
    mres.Mandatory = m0.Mandatory ∧ mres.Immediate = m0.Immediate ∧
    mres.ConfirmMeta = m0.ConfirmMeta := by
  unfold Message.Unmarshal at h
  rw [Option.bind_eq_some] at h
  obtain ⟨pid, _, h⟩ := h
  rw [Option.bind_eq_some] at h
  obtain ⟨ph, _, h⟩ := h
  rw [Option.bind_eq_some] at h
  obtain ⟨pex, _, h⟩ := h
  rw [Option.bind_eq_some] at h
  obtain ⟨prk, _, h⟩ := h
  rw [Option.bind_eq_some] at h
  obtain ⟨psz, _, h⟩ := h
  rw [Option.bind_eq_some] at h
  obtain ⟨praw, _, h⟩ := h
  rw [Option.bind_eq_some] at h
  obtain ⟨frames, _, h⟩ := h
  rw [Option.map_eq_some'] at h
  obtain ⟨pdc, _, hres⟩ := h
  rw [← hres]
  exact ⟨rfl, rfl, rfl⟩

theorem Unmarshal_indep (m0 : Message) (bs : List Nat) (v : String)
    (mF : Message) (h : Message.Unmarshal emptyMessage bs v = some mF) :
    Message.Unmarshal m0 bs v =
      some { mF with Mandatory := m0.Mandatory, Immediate := m0.Immediate,
                     ConfirmMeta := m0.ConfirmMeta, Body := m0.Body ++ mF.Body } := by
  unfold Message.Unmarshal at h ⊢
  rw [Option.bind_eq_some] at h
  obtain ⟨pid, hid, h⟩ := h
  rw [Option.bind_eq_some] at h
  obtain ⟨ph, hph, h⟩ := h
  rw [Option.bind_eq_some] at h
  obtain ⟨pex, hex, h⟩ := h
  rw [Option.bind_eq_some] at h
  obtain ⟨prk, hrk, h⟩ := h
  rw [Option.bind_eq_some] at h
  obtain ⟨psz, hsz, h⟩ := h
  rw [Option.bind_eq_some] at h
  obtain ⟨praw, hraw, h⟩ := h
  rw [Option.bind_eq_some] at h
  obtain ⟨frames, hfr, h⟩ := h
  rw [Option.map_eq_some'] at h
  obtain ⟨pdc, hdcr, hres⟩ := h
  rw [hid]
  simp only [Option.some_bind]
  rw [hph]
  simp only [Option.some_bind]
  rw [hex]
  simp only [Option.some_bind]
  rw [hrk]
  simp only [Option.some_bind]
  rw [hsz]
  simp only [Option.some_bind]
  rw [hraw]
  simp only [Option.some_bind]
  rw [hfr]
  simp only [Option.some_bind]
  rw [hdcr]
  simp only [Option.map_some']
  rw [← hres]
  simp [emptyMessage]

/-! Claim theorems. -/

/-- Claim C1, counterexample: the round trip does not reproduce a Message
equal to the input in every field.  For the concrete message
`exMandatoryMsg`, whose Mandatory flag is true, `Marshal` succeeds and
unmarshalling its bytes into a fresh Message yields the same message with
Mandatory reset to false, which is not equal to the input. -/
theorem roundtrip_not_field_equal :
    (Option.bind (exMandatoryMsg.Marshal protoV) fun bs =>
      Message.Unmarshal emptyMessage bs protoV) =
      some { exMandatoryMsg with Mandatory := false } ∧
    exMandatoryMsg.Mandatory = true ∧
    { exMandatoryMsg with Mandatory := false } ≠ exMandatoryMsg :=
  ⟨by decide, rfl, by decide⟩

/-- Claim C1 (amended): for every machine-representable Message whose
`Marshal` succeeds, unmarshalling the produced bytes into a fresh Message
reproduces the input's ID, content header, exchange, routing key, declared
body size, delivery count and body-frame sequence in original order (for
every body-frame count including zero), for every protocol version; the
fields `Marshal` does not encode keep the fresh Message's zero values. -/
theorem marshal_unmarshal_roundtrip (m : Message) (v : String) (bs : List Nat)
    (hwf : m.WF) (h : m.Marshal v = some bs) :
    Message.Unmarshal emptyMessage bs v =
      some { emptyMessage with
        ID := m.ID, Header := m.Header, Exchange := m.Exchange,
        RoutingKey := m.RoutingKey, BodySize := m.BodySize,
        Body := m.Body, DeliveryCount := m.DeliveryCount } := by
  have hc := Unmarshal_Marshal_core m v bs hwf h emptyMessage
  simpa [emptyMessage] using hc

/-- Witness for the amended C1 at the concrete message `exMessage`. -/
theorem marshal_unmarshal_roundtrip_witness :
    Message.Unmarshal emptyMessage ((exMessage.Marshal protoV).getD []) protoV =
      some { emptyMessage with
        ID := exMessage.ID, Header := exMessage.Header,
        Exchange := exMessage.Exchange, RoutingKey := exMessage.RoutingKey,
        BodySize := exMessage.BodySize, Body := exMessage.Body,
        DeliveryCount := exMessage.DeliveryCount } :=
  marshal_unmarshal_roundtrip exMessage protoV
    ((exMessage.Marshal protoV).getD []) (by decide) (by decide)

/-- Claim C2: a successful `Marshal` produces exactly the 8-byte identity,
the content-header encoding, the 1-byte-length-prefixed exchange name, the
1-byte-length-prefixed routing key, the 8-byte declared body size, the
frame-format concatenation of the body frames wrapped as one
4-byte-length-prefixed blob, then the 4-byte delivery count, in that
order. -/
theorem marshal_layout (m : Message) (v : String) (bs hdr fblob : List Nat)
    (h : m.Marshal v = some bs)
    (hh : WriteContentHeader m.Header v = some hdr)
    (hf : WriteFrames m.Body = some fblob) :
    m.Exchange.length ≤ 255 ∧ m.RoutingKey.length ≤ 255 ∧
    fblob.length < 2 ^ 32 ∧
    (beBytes 8 m.ID).length = 8 ∧ (beBytes 4 fblob.length).length = 4 ∧
    (beBytes 8 m.BodySize).length = 8 ∧
    (beBytes 4 m.DeliveryCount).length = 4 ∧
    bs = beBytes 8 m.ID ++ (hdr ++ ((m.Exchange.length :: m.Exchange) ++
         ((m.RoutingKey.length :: m.RoutingKey) ++ (beBytes 8 m.BodySize ++
         ((beBytes 4 fblob.length ++ fblob) ++
          beBytes 4 m.DeliveryCount))))) := by
  unfold Message.Marshal at h
  rw [Option.bind_eq_some] at h
  obtain ⟨hdr2, hh2, h⟩ := h
  rw [Option.bind_eq_some] at h
  obtain ⟨ex, hex, h⟩ := h
  rw [Option.bind_eq_some] at h
  obtain ⟨rk, hrk, h⟩ := h
  rw [Option.bind_eq_some] at h
  obtain ⟨body2, hb2, h⟩ := h
  rw [Option.map_eq_some'] at h
  obtain ⟨blob, hblob, hbs⟩ := h
  rw [hh] at hh2
  injection hh2 with hh2
  rw [hf] at hb2
  injection hb2 with hb2
  subst hh2
  subst hb2
  obtain ⟨hexle, hexe⟩ := WriteShortstr_eq m.Exchange ex hex
  obtain ⟨hrkle, hrke⟩ := WriteShortstr_eq m.RoutingKey rk hrk
  obtain ⟨hble, hbe⟩ := WriteLongstr_eq fblob blob hblob
  refine ⟨hexle, hrkle, hble, beBytes_length 8 m.ID,
    beBytes_length 4 fblob.length, beBytes_length 8 m.BodySize,
    beBytes_length 4 m.DeliveryCount, ?_⟩
  rw [← hbs, hexe, hrke, hbe]
  unfold WriteLonglong WriteLong
  rfl

/-- Witness for C2 at the concrete message `exMessage`. -/
theorem marshal_layout_witness :
    exMessage.Exchange.length ≤ 255 ∧ exMessage.RoutingKey.length ≤ 255 ∧
    ((WriteFrames exMessage.Body).getD []).length < 2 ^ 32 ∧
    (beBytes 8 exMessage.ID).length = 8 ∧
    (beBytes 4 ((WriteFrames exMessage.Body).getD []).length).length = 4 ∧
    (beBytes 8 exMessage.BodySize).length = 8 ∧
    (beBytes 4 exMessage.DeliveryCount).length = 4 ∧
    (exMessage.Marshal protoV).getD [] =
      beBytes 8 exMessage.ID ++
      ((WriteContentHeader exMessage.Header protoV).getD [] ++
      ((exMessage.Exchange.length :: exMessage.Exchange) ++
      ((exMessage.RoutingKey.length :: exMessage.RoutingKey) ++
      (beBytes 8 exMessage.BodySize ++
      ((beBytes 4 ((WriteFrames exMessage.Body).getD []).length ++
        (WriteFrames exMessage.Body).getD []) ++
       beBytes 4 exMessage.DeliveryCount))))) :=
  marshal_layout exMessage protoV ((exMessage.Marshal protoV).getD [])
    ((WriteContentHeader exMessage.Header protoV).getD [])
    ((WriteFrames exMessage.Body).getD [])
    (by decide) (by decide) (by decide)

/-- Claim C3: `CanConfirm` returns true exactly when the actual confirm
count equals the expected one; in particular both counters zero yields
true.  The operation is a pure predicate of the record, so it cannot
mutate the ConfirmMeta. -/
theorem canConfirm_iff_counts_equal (meta : ConfirmMeta) :
    (meta.CanConfirm = true ↔ meta.ActualConfirms = meta.ExpectedConfirms) ∧
    ConfirmMeta.CanConfirm
      { meta with ExpectedConfirms := 0, ActualConfirms := 0 } = true := by
  constructor
  · simp [ConfirmMeta.CanConfirm]
  · simp [ConfirmMeta.CanConfirm]

/-- Claim C4, counterexample: the counter increment is a wrapping uint64
add, so at counter value `2 ^ 64 - 2` two sequential assignments to
zero-ID messages yield IDs `2 ^ 64 - 1` and then `0`, which are not
strictly increasing; and at counter value `2 ^ 64 - 1` the assigned
identity is `0`, so a repeated call is not a no-op and changes the
identity again. -/
theorem generateSeq_wraps :
    ((emptyMessage.GenerateSeq (2 ^ 64 - 2)).2).ID = 2 ^ 64 - 1 ∧
    ((emptyMessage.GenerateSeq
        (emptyMessage.GenerateSeq (2 ^ 64 - 2)).1).2).ID = 0 ∧
    ¬ (((emptyMessage.GenerateSeq (2 ^ 64 - 2)).2).ID <
       ((emptyMessage.GenerateSeq
           (emptyMessage.GenerateSeq (2 ^ 64 - 2)).1).2).ID) ∧
    (((emptyMessage.GenerateSeq (2 ^ 64 - 1)).2).GenerateSeq
        (emptyMessage.GenerateSeq (2 ^ 64 - 1)).1).2 ≠
      (emptyMessage.GenerateSeq (2 ^ 64 - 1)).2 := by
  decide

/-- Claim C4 (amended): assigning an identity is a no-op on a message
whose ID is already non-zero, for every counter value; and as long as the
wrapping uint64 counter increments stay below `2 ^ 64`, repeated calls
are idempotent (the identity never changes once assigned) and assigning
identities to two zero-ID messages in sequence yields strictly increasing
ID values. -/
theorem generateSeq_noop_and_monotonic (c : Nat) (m m1 m2 : Message)
    (hm : m.ID ≠ 0) (h1 : m1.ID = 0) (h2 : m2.ID = 0)
    (hc : c + 2 < 2 ^ 64) :
    m.GenerateSeq c = (c, m) ∧
    ((m1.GenerateSeq c).2).GenerateSeq (m1.GenerateSeq c).1 =
      ((m1.GenerateSeq c).1, (m1.GenerateSeq c).2) ∧
    ((m1.GenerateSeq c).2).ID <
      ((m2.GenerateSeq (m1.GenerateSeq c).1).2).ID := by
  have hm1 : (c + 1) % 2 ^ 64 = c + 1 := Nat.mod_eq_of_lt (by omega)
  have hm2 : (c + 1 + 1) % 2 ^ 64 = c + 1 + 1 := Nat.mod_eq_of_lt (by omega)
  refine ⟨?_, ?_, ?_⟩
  · unfold Message.GenerateSeq
    rw [if_neg hm]
  · simp [Message.GenerateSeq, h1, hm1]
    omega
  · simp [Message.GenerateSeq, h1, h2, hm1, hm2]
    omega

/-- Witness for the amended C4 at counter value 5, `exMessage` (non-zero
ID) and two fresh zero-ID messages. -/
theorem generateSeq_witness :
    exMessage.GenerateSeq 5 = (5, exMessage) ∧
    ((emptyMessage.GenerateSeq 5).2).GenerateSeq (emptyMessage.GenerateSeq 5).1 =
      ((emptyMessage.GenerateSeq 5).1, (emptyMessage.GenerateSeq 5).2) ∧
    ((emptyMessage.GenerateSeq 5).2).ID <
      ((emptyMessage.GenerateSeq (emptyMessage.GenerateSeq 5).1).2).ID :=
  generateSeq_noop_and_monotonic 5 exMessage emptyMessage emptyMessage
    (by decide) rfl rfl (by decide)

/-- Claim C5: both error constructors set ReplyCode, ClassID and MethodID
from the arguments and compose ReplyText as the canonical name for the
code, a separator, and the detail text; they differ only in the scope
tag. -/
theorem newError_constructors (code : Nat) (text : String)
    (classID methodID : Nat) :
    NewConnectionError code text classID methodID =
      { ReplyCode := code,
        ReplyText := mapLookup ConstantsNameMap code ++ " - " ++ text,
        ClassID := classID, MethodID := methodID,
        ErrorType := ErrorOnConnection } ∧
    NewChannelError code text classID methodID =
      { ReplyCode := code,
        ReplyText := mapLookup ConstantsNameMap code ++ " - " ++ text,
        ClassID := classID, MethodID := methodID,
        ErrorType := ErrorOnChannel } ∧
    ErrorOnConnection ≠ ErrorOnChannel :=
  ⟨rfl, rfl, by decide⟩

/-- Claim C6: with a content header and decoded property list attached,
`IsPersistent` is defined and returns true exactly when the delivery-mode
property is present with value 2, false when it is absent or holds any
other value. -/
theorem isPersistent_iff_mode_two (m : Message) (h : ContentHeader)
    (pl : BasicPropertyList) (hh : m.Header = some h)
    (hp : h.PropertyList = some pl) :
    m.IsPersistent = some (pl.DeliveryMode == some 2) ∧
    (m.IsPersistent = some true ↔ pl.DeliveryMode = some 2) := by
  have h1 : m.IsPersistent = some (pl.DeliveryMode == some 2) := by
    unfold Message.IsPersistent
    rw [hh]
    simp only [Option.some_bind]
    rw [hp]
    simp only [Option.map_some']
  refine ⟨h1, ?_⟩
  rw [h1]
  simp [beq_iff_eq]

/-- Witness for C6 at `exMessage`, whose header carries delivery mode 2. -/
theorem isPersistent_witness :
    exMessage.IsPersistent = some ((some 2 : Option Nat) == some 2) ∧
    (exMessage.IsPersistent = some true ↔ (some 2 : Option Nat) = some 2) :=
  isPersistent_iff_mode_two exMessage exHeader { DeliveryMode := some 2 }
    rfl rfl

/-- Claim C7, counterexample: `Append` performs a Go uint64 addition, so
on a message whose BodySize is `2 ^ 64 - 1` (reachable, since Unmarshal
stores the raw 8-byte declared size) appending a 3-byte frame wraps
BodySize to 2 rather than increasing it by exactly the payload length. -/
theorem append_bodysize_wraps :
    (exHugeMsg.Append exFrame1).BodySize = 2 ∧
    exHugeMsg.BodySize + exFrame1.Payload.length ≠ 2 := by
  decide

/-- Claim C7 (amended): `NewMessage` sets exchange, routing key and the
publish flags and zeroes everything else; `Append` adds the frame at the
end of the body sequence and sets BodySize to the uint64-wrapping sum of
the old BodySize and the frame's payload length, an increase by exactly
the payload length whenever that sum is below `2 ^ 64`; appending frames
of payload lengths 3, 5 and 7 to a fresh message yields BodySize 15 and
the three frames in append order. -/
theorem newMessage_and_append (method : BasicPublish) (m : Message)
    (f : Frame) (hof : m.BodySize + f.Payload.length < 2 ^ 64) :
    NewMessage method =
      { ID := 0, BodySize := 0, DeliveryCount := 0,
        Mandatory := method.Mandatory, Immediate := method.Immediate,
        Exchange := method.Exchange, RoutingKey := method.RoutingKey,
        ConfirmMeta := none, Header := none, Body := [] } ∧
    (m.Append f).Body = m.Body ++ [f] ∧
    (m.Append f).BodySize = (m.BodySize + f.Payload.length) % 2 ^ 64 ∧
    (m.Append f).BodySize = m.BodySize + f.Payload.length ∧
    ((((NewMessage method).Append exFrame1).Append exFrame2).Append
      exFrame3).BodySize = 15 ∧
    ((((NewMessage method).Append exFrame1).Append exFrame2).Append
      exFrame3).Body = [exFrame1, exFrame2, exFrame3] := by
  refine ⟨rfl, rfl, rfl, ?_, rfl, rfl⟩
  show (m.BodySize + f.Payload.length) % 2 ^ 64 = m.BodySize + f.Payload.length
  exact Nat.mod_eq_of_lt hof

/-- Witness for the amended C7 at the concrete publish command and
message. -/
theorem newMessage_and_append_witness :
    NewMessage exPublish =
      { ID := 0, BodySize := 0, DeliveryCount := 0,
        Mandatory := exPublish.Mandatory, Immediate := exPublish.Immediate,
        Exchange := exPublish.Exchange, RoutingKey := exPublish.RoutingKey,
        ConfirmMeta := none, Header := none, Body := [] } ∧
    (exMessage.Append exFrame1).Body = exMessage.Body ++ [exFrame1] ∧
    (exMessage.Append exFrame1).BodySize =
      (exMessage.BodySize + exFrame1.Payload.length) % 2 ^ 64 ∧
    (exMessage.Append exFrame1).BodySize =
      exMessage.BodySize + exFrame1.Payload.length ∧
    ((((NewMessage exPublish).Append exFrame1).Append exFrame2).Append
      exFrame3).BodySize = 15 ∧
    ((((NewMessage exPublish).Append exFrame1).Append exFrame2).Append
      exFrame3).Body = [exFrame1, exFrame2, exFrame3] :=
  newMessage_and_append exPublish exMessage exFrame1 (by decide)

/-- Claim C8: `Marshal` encodes neither the Mandatory flag, the Immediate
flag nor the ConfirmMeta, so unmarshalling the produced bytes into a fresh
zero-valued Message leaves Mandatory false, Immediate false and
ConfirmMeta absent, whatever their values in the input. -/
theorem roundtrip_drops_publish_flags (m : Message) (v : String)
    (bs : List Nat) (mres : Message) (_hm : m.Marshal v = some bs)
    (hu : Message.Unmarshal emptyMessage bs v = some mres) :
    mres.Mandatory = false ∧ mres.Immediate = false ∧
    mres.ConfirmMeta = none := by
  have hp := Unmarshal_preserves_meta emptyMessage bs v mres hu
  simpa [emptyMessage] using hp

/-- Witness for C8 at `exFlaggedMsg`, whose Mandatory/Immediate flags are
set and which carries a confirm contract. -/
theorem roundtrip_drops_publish_flags_witness :
    ((Message.Unmarshal emptyMessage ((exFlaggedMsg.Marshal protoV).getD [])
        protoV).getD emptyMessage).Mandatory = false ∧
    ((Message.Unmarshal emptyMessage ((exFlaggedMsg.Marshal protoV).getD [])
        protoV).getD emptyMessage).Immediate = false ∧
    ((Message.Unmarshal emptyMessage ((exFlaggedMsg.Marshal protoV).getD [])
        protoV).getD emptyMessage).ConfirmMeta = none :=
  roundtrip_drops_publish_flags exFlaggedMsg protoV
    ((exFlaggedMsg.Marshal protoV).getD [])
    ((Message.Unmarshal emptyMessage ((exFlaggedMsg.Marshal protoV).getD [])
        protoV).getD emptyMessage)
    (by decide) (by decide)

/-- Claim C9, counterexample: after a successful Unmarshal into a message
whose pre-existing body frame has an empty payload, BodySize still equals
the sum of the body frames' payload lengths, refuting the parenthetical
claim that it no longer does. -/
theorem unmarshal_bodysize_can_equal_sum :
    (Option.bind (exZeroBodyMsg.Marshal protoV) fun bs =>
      Message.Unmarshal exPreloadedMsg bs protoV) = some exPostMsg ∧
    exPreloadedMsg.Body ≠ [] ∧
    exPostMsg.BodySize = bodyPayloadSum exPostMsg.Body := by
  decide

/-- Claim C9 (amended): a successful Unmarshal into a Message appends the
decoded frames after the pre-existing body frames rather than replacing
them, and overwrites BodySize with the decoded declared value; that value
need not equal the total payload length of the resulting body, and is
strictly smaller than it whenever the pre-existing frames carry nonzero
total payload and the declared value matches the decoded frames'
total. -/
theorem unmarshal_appends_body (m0 : Message) (bs : List Nat) (v : String)
    (mF mres : Message)
    (hF : Message.Unmarshal emptyMessage bs v = some mF)
    (hres : Message.Unmarshal m0 bs v = some mres) :
    mres.Body = m0.Body ++ mF.Body ∧
    mres.BodySize = mF.BodySize ∧
    (bodyPayloadSum m0.Body ≠ 0 → mF.BodySize = bodyPayloadSum mF.Body →
      mres.BodySize ≠ bodyPayloadSum mres.Body) := by
  have hind := Unmarshal_indep m0 bs v mF hF
  rw [hres] at hind
  injection hind with he
  subst he
  refine ⟨rfl, rfl, ?_⟩
  intro hnz hsum
  show mF.BodySize ≠ bodyPayloadSum (m0.Body ++ mF.Body)
  rw [hsum]
  unfold bodyPayloadSum at hnz ⊢
  rw [List.map_append, List.sum_append]
  omega

/-- Witness for the amended C9: unmarshalling the bytes of `exMessage`
(declared size 8, matching its two frames) into `exLoadedMsg`, which
already holds a 3-byte frame. -/
theorem unmarshal_appends_body_witness :
    ((Message.Unmarshal exLoadedMsg ((exMessage.Marshal protoV).getD [])
        protoV).getD emptyMessage).Body =
      exLoadedMsg.Body ++
      ((Message.Unmarshal emptyMessage ((exMessage.Marshal protoV).getD [])
          protoV).getD emptyMessage).Body ∧
    ((Message.Unmarshal exLoadedMsg ((exMessage.Marshal protoV).getD [])
        protoV).getD emptyMessage).BodySize =
      ((Message.Unmarshal emptyMessage ((exMessage.Marshal protoV).getD [])
          protoV).getD emptyMessage).BodySize ∧
    (bodyPayloadSum exLoadedMsg.Body ≠ 0 →
      ((Message.Unmarshal emptyMessage ((exMessage.Marshal protoV).getD [])
          protoV).getD emptyMessage).BodySize =
        bodyPayloadSum
          ((Message.Unmarshal emptyMessage
              ((exMessage.Marshal protoV).getD []) protoV).getD
            emptyMessage).Body →
      ((Message.Unmarshal exLoadedMsg ((exMessage.Marshal protoV).getD [])
          protoV).getD emptyMessage).BodySize ≠
        bodyPayloadSum
          ((Message.Unmarshal exLoadedMsg
              ((exMessage.Marshal protoV).getD []) protoV).getD
            emptyMessage).Body) :=
  unmarshal_appends_body exLoadedMsg ((exMessage.Marshal protoV).getD [])
    protoV
    ((Message.Unmarshal emptyMessage ((exMessage.Marshal protoV).getD [])
        protoV).getD emptyMessage)
    ((Message.Unmarshal exLoadedMsg ((exMessage.Marshal protoV).getD [])
        protoV).getD emptyMessage)
    (by decide) (by decide)

/-- Claim C10: for a reply code with no entry in the code-to-name table,
both constructors still return a structured Error whose reply text is the
empty canonical name followed by the separator and the detail text. -/
theorem newError_unknown_code (code : Nat) (text : String)
    (classID methodID : Nat)
    (h : ∀ p ∈ ConstantsNameMap, p.1 ≠ code) :
    (NewConnectionError code text classID methodID).ReplyText =
      " - " ++ text ∧
    (NewChannelError code text classID methodID).ReplyText =
      " - " ++ text := by
  have hl : mapLookup ConstantsNameMap code = "" := by
    unfold mapLookup
    have hfind : ConstantsNameMap.find? (fun p => p.1 == code) = none := by
      apply List.find?_eq_none.mpr
      intro p hp
      simpa using h p hp
    rw [hfind]
  constructor
  · show mapLookup ConstantsNameMap code ++ " - " ++ text = " - " ++ text
    rw [hl, show ("" ++ " - " : String) = " - " from rfl]
  · show mapLookup ConstantsNameMap code ++ " - " ++ text = " - " ++ text
    rw [hl, show ("" ++ " - " : String) = " - " from rfl]

/-- Witness for C10 at reply code 999, which has no table entry. -/
theorem newError_unknown_code_witness :
    (NewConnectionError 999 "no entry" 10 20).ReplyText =
      " - " ++ "no entry" ∧
    (NewChannelError 999 "no entry" 10 20).ReplyText =
      " - " ++ "no entry" :=
  newError_unknown_code 999 "no entry" 10 20 (by decide)

end GarageMQ
